import Mathlib

/-
Verification of the Kerberos credential-lifecycle library (tasp-libs-krb5).

The development shallowly embeds `src/src/krb5_impl.cpp`.  Native krb5
calls are opaque to the library: each call's outcome is a field of a
`World` record, and every operation is a pure function of the world that
returns its result together with the list of native calls it performed.
Undefined behaviour reachable in the source (dereferencing a null
`shared_ptr`) is made explicit by the `Res` result type.
-/

set_option autoImplicit false

namespace TaspKrb5

/-- Lifecycle states of a credential, `Creds::State` enum in the source:
`None` = ticket still valid, `Renew` = must be renewed, `Reinit` = a new
ticket must be requested. -/
inductive CredsState where
  | None
  | Renew
  | Reinit
  deriving DecidableEq, Repr

/-- A Kerberos principal; the embedding keeps only the realm, the single
piece of data the library reads back from it (`Principal::Realm`). -/
structure Principal where
  realm : String
  deriving DecidableEq, Repr

/-- A credential's validity window, the `times` field of `krb5_creds`
that `Creds` wraps: start, end and renew-until timestamps. -/
structure Creds where
  starttime : Int
  endtime : Int
  renew_till : Int
  deriving DecidableEq, Repr

/-- `Creds::State()`: classifies the credential against the current time
`now` (obtained in the source from `krb5_timeofday`).  The result starts
as `None`; only when `now >= EndTime()` does it become `Reinit` or
`Renew`, depending on `now >= RenewTime()`. -/
def Creds.State (c : Creds) (now : Int) : CredsState :=
  if now ≥ c.endtime then
    if now ≥ c.renew_till then CredsState.Reinit else CredsState.Renew
  else CredsState.None

/-- Native krb5 calls the library can perform, named after the C
functions. -/
inductive NativeCall where
  | ccGetPrincipal
  | buildPrincipalExt
  | ccRetrieveCred
  | ccInit
  | ccStoreCred
  | getRenewedCreds
  | ktStartSeq
  | ktNextEntry
  | ktEndSeq
  | ktFreeEntry
  | getInitCredsKeytab
  deriving DecidableEq, Repr

/-- Whether a native call mutates the credential cache: cache
creation (`krb5_cc_initialize`), credential store
(`krb5_cc_store_cred`) and renewal (`krb5_get_renewed_creds`). -/
def NativeCall.mutating : NativeCall → Bool
  | NativeCall.ccInit => true
  | NativeCall.ccStoreCred => true
  | NativeCall.getRenewedCreds => true
  | _ => false

/-- Outcome of an operation that, in the source, may dereference a null
`shared_ptr`: either a normal value or the undefined-behaviour marker. -/
inductive Res (α : Type) where
  | ok (val : α)
  | nullDeref
  deriving DecidableEq, Repr

/-- The world a service call runs against: which components were
constructed, the cache file's existence, the current time, and the
outcome of each native krb5 call together with the data it would
produce.  `ktUninitPrincipal` and `ktUninitCreds` stand for the contents
of the uninitialized stack locals (`entry`, `creds`) that the source
reads when the corresponding native call fails. -/
structure World where
  hasKeytab : Bool
  hasCcache : Bool
  fileExists : Bool
  now : Int
  ccGetPrincipalOk : Bool
  cachedPrincipal : Principal
  buildPrincipalExtOk : Bool
  ccRetrieveCredOk : Bool
  retrievedCreds : Creds
  ccInitOk : Bool
  ccStoreCredOk : Bool
  getRenewedCredsOk : Bool
  ktStartSeqOk : Bool
  ktNextEntryOk : Bool
  ktEntryPrincipal : Principal
  ktUninitPrincipal : Principal
  getInitCredsKeytabOk : Bool
  ktCreds : Creds
  ktUninitCreds : Creds
  deriving DecidableEq, Repr

/-- `Keytab::GetPrincipal`: opens a sequential cursor; on
`krb5_kt_start_seq_get` failure it reports and returns null.  A
`krb5_kt_next_entry` failure is only reported: execution continues and a
`Principal` is built from the (then uninitialized) local `entry`, so the
result is non-null either way. -/
def Keytab.GetPrincipal (w : World) : Option Principal × List NativeCall :=
  if w.ktStartSeqOk = false then (none, [NativeCall.ktStartSeq])
  else
    (some (if w.ktNextEntryOk then w.ktEntryPrincipal else w.ktUninitPrincipal),
     [NativeCall.ktStartSeq, NativeCall.ktNextEntry, NativeCall.ktEndSeq,
      NativeCall.ktFreeEntry])

/-- `Keytab::GetCreds`: returns null when `GetPrincipal` does; otherwise
calls `krb5_get_init_creds_keytab`.  A failure of that call is only
reported: a `Creds` is still built from the (then uninitialized) local
`creds`, so the result is non-null. -/
def Keytab.GetCreds (w : World) : Option Creds × List NativeCall :=
  match Keytab.GetPrincipal w with
  | (none, tr) => (none, tr)
  | (some _, tr) =>
    (some (if w.getInitCredsKeytabOk then w.ktCreds else w.ktUninitCreds),
     tr ++ [NativeCall.getInitCredsKeytab])

/-- `Ccache::GetPrincipal`: wraps `krb5_cc_get_principal`; null on
failure. -/
def Ccache.GetPrincipal (w : World) : Option Principal × List NativeCall :=
  (if w.ccGetPrincipalOk then some w.cachedPrincipal else none,
   [NativeCall.ccGetPrincipal])

/-- `Ccache::GetServerPrincipal`: builds the TGS principal of `realm`
via `krb5_build_principal_ext`; null on failure. -/
def Ccache.GetServerPrincipal (w : World) (realm : String) :
    Option Principal × List NativeCall :=
  (if w.buildPrincipalExtOk then some { realm := realm } else none,
   [NativeCall.buildPrincipalExt])

/-- `Ccache::GetCreds`: resolves the stored client principal (null →
return null), builds the server principal for its realm, then — the
source re-checks `principal_client` instead of `principal_server` —
dereferences `principal_server` to fill the match pattern before calling
`krb5_cc_retrieve_cred`.  A null server principal therefore leads to a
null dereference, not an empty result. -/
def Ccache.GetCreds (w : World) : Res (Option Creds) × List NativeCall :=
  let pc := Ccache.GetPrincipal w
  match pc.1 with
  | none => (Res.ok none, pc.2)
  | some p =>
    let ps := Ccache.GetServerPrincipal w p.realm
    if pc.1.isNone then (Res.ok none, pc.2 ++ ps.2)
    else
      match ps.1 with
      | none => (Res.nullDeref, pc.2 ++ ps.2)
      | some _ =>
        if w.ccRetrieveCredOk then
          (Res.ok (some w.retrievedCreds),
           pc.2 ++ ps.2 ++ [NativeCall.ccRetrieveCred])
        else (Res.ok none, pc.2 ++ ps.2 ++ [NativeCall.ccRetrieveCred])

/-- `Ccache::Create`: returns false at once when either argument is
null, performing no native call; otherwise `krb5_cc_initialize`
(false on failure), then `krb5_cc_store_cred`, returning whether the
store succeeded. -/
def Ccache.Create (w : World) (principal : Option Principal)
    (creds : Option Creds) : Bool × List NativeCall :=
  if principal.isNone || creds.isNone then (false, [])
  else if w.ccInitOk = false then (false, [NativeCall.ccInit])
  else (w.ccStoreCredOk, [NativeCall.ccInit, NativeCall.ccStoreCred])

/-- `Ccache::Update`: reads the current principal and credential from
the cache; fails when either is missing; otherwise requests renewed
credentials (`krb5_get_renewed_creds`, false on failure) and finally
re-invokes `Create` with the pair. -/
def Ccache.Update (w : World) : Res Bool × List NativeCall :=
  let pr := Ccache.GetPrincipal w
  let cr := Ccache.GetCreds w
  match cr.1 with
  | Res.nullDeref => (Res.nullDeref, pr.2 ++ cr.2)
  | Res.ok creds =>
    if pr.1.isNone || creds.isNone then (Res.ok false, pr.2 ++ cr.2)
    else if w.getRenewedCredsOk = false then
      (Res.ok false, pr.2 ++ cr.2 ++ [NativeCall.getRenewedCreds])
    else
      let cre := Ccache.Create w pr.1 creds
      (Res.ok cre.1, pr.2 ++ cr.2 ++ [NativeCall.getRenewedCreds] ++ cre.2)

/-- `ServiceImpl::CreateCcache`: false when either store is absent;
fetches principal and credential from the keytab, writes them via
`Ccache::Create`; on success it reads the credential back from the cache
and unconditionally dereferences the result to log the validity window
(`ccache_creds->TimesInfo()`), a null dereference when the read-back is
empty. -/
def ServiceImpl.CreateCcache (w : World) : Res Bool × List NativeCall :=
  if w.hasCcache = false || w.hasKeytab = false then (Res.ok false, [])
  else
    let pr := Keytab.GetPrincipal w
    let cr := Keytab.GetCreds w
    let res := Ccache.Create w pr.1 cr.1
    if res.1 then
      match Ccache.GetCreds w with
      | (Res.nullDeref, tr) => (Res.nullDeref, pr.2 ++ cr.2 ++ res.2 ++ tr)
      | (Res.ok none, tr) => (Res.nullDeref, pr.2 ++ cr.2 ++ res.2 ++ tr)
      | (Res.ok (some _), tr) => (Res.ok true, pr.2 ++ cr.2 ++ res.2 ++ tr)
    else (Res.ok false, pr.2 ++ cr.2 ++ res.2)

/-- `ServiceImpl::UpdateCcache`: false when the cache component is
absent; delegates to `CreateCcache` when the cache file does not exist;
otherwise reads the cached credential (false when missing) and
dispatches on its state: `Renew` → `Ccache::Update`, on success reading
the credential back and unconditionally dereferencing it for logging, on
failure falling back to `CreateCcache`; `Reinit` → `CreateCcache`;
default (`None`) → true. -/
def ServiceImpl.UpdateCcache (w : World) : Res Bool × List NativeCall :=
  if w.hasCcache = false then (Res.ok false, [])
  else if w.fileExists = false then ServiceImpl.CreateCcache w
  else
    let cr := Ccache.GetCreds w
    match cr.1 with
    | Res.nullDeref => (Res.nullDeref, cr.2)
    | Res.ok none => (Res.ok false, cr.2)
    | Res.ok (some creds) =>
      match creds.State w.now with
      | CredsState.Renew =>
        let upd := Ccache.Update w
        match upd.1 with
        | Res.nullDeref => (Res.nullDeref, cr.2 ++ upd.2)
        | Res.ok true =>
          match Ccache.GetCreds w with
          | (Res.nullDeref, tr) => (Res.nullDeref, cr.2 ++ upd.2 ++ tr)
          | (Res.ok none, tr) => (Res.nullDeref, cr.2 ++ upd.2 ++ tr)
          | (Res.ok (some _), tr) => (Res.ok true, cr.2 ++ upd.2 ++ tr)
        | Res.ok false =>
          let fb := ServiceImpl.CreateCcache w
          (fb.1, cr.2 ++ upd.2 ++ fb.2)
      | CredsState.Reinit =>
        let fb := ServiceImpl.CreateCcache w
        (fb.1, cr.2 ++ fb.2)
      | CredsState.None => (Res.ok true, cr.2)

/-- Configuration collaborator: the variables the library reads.
Optional fields are variables that may be absent from the configuration
file; `Config.var` applies the default, as `cfg.variable(key, default)`
does in the source. -/
structure Config where
  systemType : Option String
  progpath : String
  keytabPath : Option String
  ccachePath : Option String
  progname : String
  deriving DecidableEq, Repr

/-- `cfg.variable(key, default)`: the stored value when present, the
default otherwise. -/
def Config.var (v : Option String) (dflt : String) : String := v.getD dflt

/-- The fields of `FileInterface` that `Init` writes: the resolved path
and the program type. -/
structure FileInterfaceState where
  fullpath : String
  program_type : String
  deriving DecidableEq, Repr

/-- `FileInterface::Init`: reads the program type from configuration
(key `system/type`, default `manual`); when the stored path is empty,
resolves it to `DefaultName()` in manual mode and `ConfigName()`
otherwise.  The two virtual names are passed in by the concrete
store. -/
def FileInterface.Init (cfg : Config) (st : FileInterfaceState)
    (defaultName : String) (configName : String) : FileInterfaceState :=
  let ptype := Config.var cfg.systemType "manual"
  if st.fullpath.isEmpty then
    { fullpath := if ptype == "manual" then defaultName else configName,
      program_type := ptype }
  else
    { st with program_type := ptype }

/-- `Keytab::ConfigName`: `kerberos/keytab` from configuration,
defaulting to `system/progpath` plus `/keytab`. -/
def Keytab.ConfigName (cfg : Config) : String :=
  Config.var cfg.keytabPath (cfg.progpath ++ "/keytab")

/-- `Ccache::ConfigName`: `kerberos/ccache` from configuration
(defaulting to `system/progpath`) plus `/krb5cc_` and the program
name. -/
def Ccache.ConfigName (cfg : Config) : String :=
  Config.var cfg.ccachePath cfg.progpath ++ "/krb5cc_" ++ cfg.progname

/-- Steps a store constructor performs after the member
initializers. -/
inductive CtorStep where
  | initResolve
  | setenvCcname (path : String)
  | ktResolve (path : String)
  | ccResolve (path : String)
  deriving DecidableEq, Repr

/-- `Keytab::Keytab`: runs `FileInterface::Init`, then
`krb5_kt_resolve` on the resolved file name.  `defaultName` stands for
the string the native `krb5_kt_default_name` would produce. -/
def Keytab.ctor (cfg : Config) (fullpath : String) (defaultName : String) :
    FileInterfaceState × List CtorStep :=
  let st := FileInterface.Init cfg
    { fullpath := fullpath, program_type := "manual" }
    defaultName (Keytab.ConfigName cfg)
  (st, [CtorStep.initResolve, CtorStep.ktResolve st.fullpath])

/-- `Ccache::Ccache`: runs `FileInterface::Init`, then sets the
`KRB5CCNAME` environment variable to the resolved file name and calls
`krb5_cc_resolve` on it.  `defaultName` stands for the string the
native `krb5_cc_default_name` would produce. -/
def Ccache.ctor (cfg : Config) (fullpath : String) (defaultName : String) :
    FileInterfaceState × List CtorStep :=
  let st := FileInterface.Init cfg
    { fullpath := fullpath, program_type := "manual" }
    defaultName (Ccache.ConfigName cfg)
  (st, [CtorStep.initResolve, CtorStep.setenvCcname st.fullpath,
        CtorStep.ccResolve st.fullpath])

/-
Concrete worlds used by witnesses and counterexamples.
-/

/-- A world in which every native call succeeds and the cached
credential is well inside its validity window at `now = 0`. -/
def baseWorld : World where
  hasKeytab := true
  hasCcache := true
  fileExists := true
  now := 0
  ccGetPrincipalOk := true
  cachedPrincipal := { realm := "EXAMPLE.COM" }
  buildPrincipalExtOk := true
  ccRetrieveCredOk := true
  retrievedCreds := { starttime := 0, endtime := 100, renew_till := 200 }
  ccInitOk := true
  ccStoreCredOk := true
  getRenewedCredsOk := true
  ktStartSeqOk := true
  ktNextEntryOk := true
  ktEntryPrincipal := { realm := "EXAMPLE.COM" }
  ktUninitPrincipal := { realm := "UNINIT" }
  getInitCredsKeytabOk := true
  ktCreds := { starttime := 0, endtime := 100, renew_till := 200 }
  ktUninitCreds := { starttime := -7, endtime := -7, renew_till := -7 }

/-
Claim theorems.
-/

/-- C2 counterexample: a credential whose `renew_till` (5) lies before
its `endtime` (10), observed at `now = 7`: `now` is at or past
`renew_till`, yet `Creds::State` returns `None` (Valid), not `Reinit`,
because the source only inspects `renew_till` after `now` has reached
`endtime`. -/
theorem creds_state_reinit_counterexample :
    (⟨0, 10, 5⟩ : Creds).renew_till ≤ 7 ∧
    Creds.State ⟨0, 10, 5⟩ 7 = CredsState.None ∧
    Creds.State ⟨0, 10, 5⟩ 7 ≠ CredsState.Reinit := by
  refine ⟨by decide, by decide, by decide⟩

/-- C2 (amended): `Creds::State` returns `None` (Valid) exactly when
`now < endtime`, `Renew` exactly when `endtime ≤ now < renew_till`, and
`Reinit` exactly when `now` is at or past both `endtime` and
`renew_till`; in particular a time in `[renew_till, endtime)` yields
`None`, not `Reinit`. -/
theorem creds_state_classification (c : Creds) (now : Int) :
    (c.State now = CredsState.None ↔ now < c.endtime) ∧
    (c.State now = CredsState.Renew ↔ c.endtime ≤ now ∧ now < c.renew_till) ∧
    (c.State now = CredsState.Reinit ↔ c.endtime ≤ now ∧ c.renew_till ≤ now) := by
  by_cases h1 : now ≥ c.endtime
  · by_cases h2 : now ≥ c.renew_till
    · simp [Creds.State, h1, h2]
      try omega
    · simp [Creds.State, h1, h2]
      try omega
  · simp [Creds.State, h1]
    try omega

/-- C4: `Ccache::Create` returns false with no native call when either
argument is null, and returns true exactly when both arguments are
non-null and both `krb5_cc_initialize` and `krb5_cc_store_cred`
succeed. -/
theorem ccache_create_outcome (w : World) (p : Option Principal)
    (c : Option Creds) :
    Ccache.Create w none c = (false, []) ∧
    Ccache.Create w p none = (false, []) ∧
    ((Ccache.Create w p c).1 = true ↔
      p.isSome = true ∧ c.isSome = true ∧
      w.ccInitOk = true ∧ w.ccStoreCredOk = true) := by
  refine ⟨by simp [Ccache.Create], by simp [Ccache.Create], ?_⟩
  cases p <;> cases c <;> cases hI : w.ccInitOk <;>
    simp [Ccache.Create, hI]

/-- C3: when the cache component is present but the cache file does not
exist, `UpdateCcache` is, outcome and native calls alike, exactly
`CreateCcache` on the same state. -/
theorem updateCcache_no_file_delegates (w : World)
    (hcc : w.hasCcache = true) (hfe : w.fileExists = false) :
    ServiceImpl.UpdateCcache w = ServiceImpl.CreateCcache w := by
  simp [ServiceImpl.UpdateCcache, hcc, hfe]

/-- C3 witness: the delegation at a concrete world whose cache file is
absent. -/
theorem updateCcache_no_file_delegates_witness :
    ({ baseWorld with fileExists := false } : World).hasCcache = true ∧
    ({ baseWorld with fileExists := false } : World).fileExists = false ∧
    ServiceImpl.UpdateCcache { baseWorld with fileExists := false } =
      ServiceImpl.CreateCcache { baseWorld with fileExists := false } :=
  ⟨rfl, rfl, updateCcache_no_file_delegates _ rfl rfl⟩

/-- C1: when the cache file exists and the cached credential's state is
`Renew`, `UpdateCcache` attempts `Ccache::Update`; if that renewal
fails, it calls `CreateCcache` and returns that call's outcome, and its
native-call trace is exactly the read, the attempted renewal, and the
fallback creation. -/
theorem updateCcache_renew_fallback (w : World) (c : Creds)
    (hcc : w.hasCcache = true) (hfe : w.fileExists = true)
    (hcr : (Ccache.GetCreds w).1 = Res.ok (some c))
    (hst : c.State w.now = CredsState.Renew)
    (hupd : (Ccache.Update w).1 = Res.ok false) :
    (ServiceImpl.UpdateCcache w).1 = (ServiceImpl.CreateCcache w).1 ∧
    (ServiceImpl.UpdateCcache w).2 =
      (Ccache.GetCreds w).2 ++ (Ccache.Update w).2 ++
        (ServiceImpl.CreateCcache w).2 := by
  refine ⟨?_, ?_⟩ <;> simp [ServiceImpl.UpdateCcache, hcc, hfe, hcr, hst, hupd]

/-- The credential stored in `baseWorld`: valid at time 0, renewable
between times 100 and 200. -/
def baseCreds : Creds where
  starttime := 0
  endtime := 100
  renew_till := 200

/-- `baseWorld` at `now = 150` (renewal window) with a failing
`krb5_get_renewed_creds`. -/
def wRenewFail : World :=
  { baseWorld with now := 150, getRenewedCredsOk := false }

/-- C1 witness: a concrete world whose cached credential needs renewal
at `now = 150` and whose `krb5_get_renewed_creds` fails. -/
theorem updateCcache_renew_fallback_witness :
    (Ccache.GetCreds wRenewFail).1 = Res.ok (some baseCreds) ∧
    Creds.State baseCreds 150 = CredsState.Renew ∧
    (Ccache.Update wRenewFail).1 = Res.ok false ∧
    (ServiceImpl.UpdateCcache wRenewFail).1 =
      (ServiceImpl.CreateCcache wRenewFail).1 :=
  ⟨by decide, by decide, by decide,
   (updateCcache_renew_fallback wRenewFail baseCreds rfl rfl (by decide)
      (by decide) (by decide)).1⟩

/-- Helper: `Ccache::GetCreds` only reads: its native-call trace never
contains a cache-mutating call. -/
theorem ccache_getCreds_trace_readonly (w : World) :
    ((Ccache.GetCreds w).2.all fun k => !k.mutating) = true := by
  cases hp : w.ccGetPrincipalOk <;> cases hb : w.buildPrincipalExtOk <;>
    cases hr : w.ccRetrieveCredOk <;>
      simp [Ccache.GetCreds, Ccache.GetPrincipal, Ccache.GetServerPrincipal,
            hp, hb, hr, NativeCall.mutating]

/-- C8: when the cache file exists and the cached credential's state is
`None` (Valid), `UpdateCcache` returns true and performs no
cache-mutating native call; the state is therefore unchanged and an
immediately repeated call is the same evaluation, again returning true
with no mutation. -/
theorem updateCcache_valid_idempotent (w : World) (c : Creds)
    (hcc : w.hasCcache = true) (hfe : w.fileExists = true)
    (hcr : (Ccache.GetCreds w).1 = Res.ok (some c))
    (hst : c.State w.now = CredsState.None) :
    (ServiceImpl.UpdateCcache w).1 = Res.ok true ∧
    ((ServiceImpl.UpdateCcache w).2.all fun k => !k.mutating) = true := by
  refine ⟨?_, ?_⟩ <;>
    simp [ServiceImpl.UpdateCcache, hcc, hfe, hcr, hst]
  have h := ccache_getCreds_trace_readonly w
  simp only [List.all_eq_true, Bool.not_eq_true'] at h
  exact h

/-- C8 witness: the valid-state no-op at a concrete world whose cached
credential is inside its validity window. -/
theorem updateCcache_valid_idempotent_witness :
    (Ccache.GetCreds baseWorld).1 = Res.ok (some baseCreds) ∧
    Creds.State baseCreds 0 = CredsState.None ∧
    (ServiceImpl.UpdateCcache baseWorld).1 = Res.ok true ∧
    ((ServiceImpl.UpdateCcache baseWorld).2.all fun k => !k.mutating) = true :=
  ⟨by decide, by decide,
   (updateCcache_valid_idempotent baseWorld baseCreds rfl rfl (by decide)
      (by decide)).1,
   (updateCcache_valid_idempotent baseWorld baseCreds rfl rfl (by decide)
      (by decide)).2⟩

/-- C5: a keytab state where the sequential cursor opens but reading
the first entry fails (`krb5_kt_next_entry` error, the empty-keytab
case).  The source reports the error but does not return: it builds a
`Principal` from the uninitialized local `entry` and returns it
non-null, instead of the empty result the claim describes. -/
theorem keytab_getPrincipal_uninit_entry_bug :
    ({ baseWorld with ktNextEntryOk := false } : World).ktStartSeqOk = true ∧
    ({ baseWorld with ktNextEntryOk := false } : World).ktNextEntryOk = false ∧
    (Keytab.GetPrincipal { baseWorld with ktNextEntryOk := false }).1 =
      some ({ baseWorld with ktNextEntryOk := false } : World).ktUninitPrincipal :=
  ⟨rfl, rfl, rfl⟩

/-- C6: a keytab state where the principal is read but the exchange of
the long-term key for a credential fails (`krb5_get_init_creds_keytab`
error).  The source reports the error but still wraps the uninitialized
local `creds` structure and returns it non-null, instead of the empty
result the claim describes. -/
theorem keytab_getCreds_uninit_creds_bug :
    ({ baseWorld with getInitCredsKeytabOk := false } : World).ktStartSeqOk = true ∧
    ({ baseWorld with getInitCredsKeytabOk := false } : World).getInitCredsKeytabOk = false ∧
    (Keytab.GetCreds { baseWorld with getInitCredsKeytabOk := false }).1 =
      some ({ baseWorld with getInitCredsKeytabOk := false } : World).ktUninitCreds :=
  ⟨rfl, rfl, rfl⟩

/-- C7: a cache state where the stored client principal resolves but
deriving the server principal for its realm fails
(`krb5_build_principal_ext` error).  The source's second null check
re-tests `principal_client` instead of `principal_server`, so it goes
on to dereference the null server principal rather than returning the
empty result the claim describes. -/
theorem ccache_getCreds_null_server_deref_bug :
    ({ baseWorld with buildPrincipalExtOk := false } : World).ccGetPrincipalOk = true ∧
    ({ baseWorld with buildPrincipalExtOk := false } : World).buildPrincipalExtOk = false ∧
    (Ccache.GetCreds { baseWorld with buildPrincipalExtOk := false }).1 =
      Res.nullDeref :=
  ⟨rfl, rfl, rfl⟩

/-- `baseWorld` with a failing `krb5_cc_retrieve_cred`: the cache write
succeeds but the read-back lookup finds nothing. -/
def wReadbackFail : World := { baseWorld with ccRetrieveCredOk := false }

/-- C10 counterexample: a world in which `Ccache::Create` (called with
the keytab's principal and credential, as `CreateCcache` calls it)
returns true, yet the immediately following read-back is empty because
the matching-credential lookup fails; the success path's unconditional
dereference then hits the empty value, made explicit by
`Res.nullDeref`. -/
theorem createCcache_readback_counterexample :
    (Ccache.Create wReadbackFail (Keytab.GetPrincipal wReadbackFail).1
      (Keytab.GetCreds wReadbackFail).1).1 = true ∧
    (Ccache.GetCreds wReadbackFail).1 = Res.ok none ∧
    (ServiceImpl.CreateCcache wReadbackFail).1 = Res.nullDeref :=
  ⟨rfl, rfl, rfl⟩

/-- C10 (amended): the success of `Ccache::Create` alone does not make
the read-back non-empty — the success-path dereference is safe exactly
when the read-back's own native lookups also succeed.  When the stored
principal resolves, the server principal builds and the matching lookup
succeeds, `CreateCcache` completes with true and no null dereference;
under the same lookup conditions, with the cached credential in its
renewal window and the renewal call succeeding, the renew branch of
`UpdateCcache` likewise completes with true and no null dereference. -/
theorem createCcache_readback_safe (w : World)
    (hcc : w.hasCcache = true) (hkt : w.hasKeytab = true)
    (hks : w.ktStartSeqOk = true)
    (hinit : w.ccInitOk = true) (hstore : w.ccStoreCredOk = true)
    (hgp : w.ccGetPrincipalOk = true) (hbp : w.buildPrincipalExtOk = true)
    (hrc : w.ccRetrieveCredOk = true)
    (hfe : w.fileExists = true)
    (hst : w.retrievedCreds.State w.now = CredsState.Renew)
    (hrn : w.getRenewedCredsOk = true) :
    (ServiceImpl.CreateCcache w).1 = Res.ok true ∧
    (ServiceImpl.UpdateCcache w).1 = Res.ok true := by
  refine ⟨?_, ?_⟩ <;>
    simp [ServiceImpl.UpdateCcache, ServiceImpl.CreateCcache, Ccache.Update,
          Ccache.GetCreds, Ccache.GetPrincipal, Ccache.GetServerPrincipal,
          Ccache.Create, Keytab.GetPrincipal, Keytab.GetCreds,
          hcc, hkt, hks, hinit, hstore, hgp, hbp, hrc, hfe, hst, hrn]

/-- `baseWorld` at `now = 150`: the cached credential is in its renewal
window and every native call succeeds. -/
def wRenewOk : World := { baseWorld with now := 150 }

/-- C10 amended-claim witness: the safe read-back at a concrete world
in the renewal window with all native calls succeeding. -/
theorem createCcache_readback_safe_witness :
    wRenewOk.retrievedCreds.State wRenewOk.now = CredsState.Renew ∧
    (ServiceImpl.CreateCcache wRenewOk).1 = Res.ok true ∧
    (ServiceImpl.UpdateCcache wRenewOk).1 = Res.ok true :=
  ⟨by decide,
   (createCcache_readback_safe wRenewOk rfl rfl rfl rfl rfl rfl rfl rfl rfl
      (by decide) rfl).1,
   (createCcache_readback_safe wRenewOk rfl rfl rfl rfl rfl rfl rfl rfl rfl
      (by decide) rfl).2⟩

/-- C9: path resolution at store construction.  An explicit non-empty
path is kept unchanged; an empty one resolves to the native default
name in manual (interactive) mode and to the configuration-derived name
otherwise; and each constructor's step list shows the resolution
happening exactly once, before the single native resolve call (and, for
the cache, before the `KRB5CCNAME` export), which receives the resolved
path. -/
theorem fileInterface_path_resolution (cfg : Config)
    (fullpath dfltKt dfltCc : String) :
    ((Keytab.ctor cfg fullpath dfltKt).1.fullpath =
      if fullpath = "" then
        (if Config.var cfg.systemType "manual" = "manual" then dfltKt
         else Keytab.ConfigName cfg)
      else fullpath) ∧
    (Keytab.ctor cfg fullpath dfltKt).2 =
      [CtorStep.initResolve,
       CtorStep.ktResolve (Keytab.ctor cfg fullpath dfltKt).1.fullpath] ∧
    ((Ccache.ctor cfg fullpath dfltCc).1.fullpath =
      if fullpath = "" then
        (if Config.var cfg.systemType "manual" = "manual" then dfltCc
         else Ccache.ConfigName cfg)
      else fullpath) ∧
    (Ccache.ctor cfg fullpath dfltCc).2 =
      [CtorStep.initResolve,
       CtorStep.setenvCcname (Ccache.ctor cfg fullpath dfltCc).1.fullpath,
       CtorStep.ccResolve (Ccache.ctor cfg fullpath dfltCc).1.fullpath] := by
  by_cases he : fullpath = ""
  · by_cases hm : Config.var cfg.systemType "manual" = "manual" <;>
      simp [Keytab.ctor, Ccache.ctor, FileInterface.Init, he, hm,
            String.isEmpty_iff]
  · simp [Keytab.ctor, Ccache.ctor, FileInterface.Init, he,
          String.isEmpty_iff]

end TaspKrb5
